import Mathlib

/-!
# Verification of the pirrtools styled-table rendering pipeline

Shallow embedding of the rendering core in `src/pirrtools/pandas.py`
(`_parse_css_color`, `_css_to_rich_text`, `_has_background_styles`,
`_optimize_table_for_backgrounds`, `_measure_column_widths`,
`_create_index_gradient_styles`, index formatting helpers, and the
table-assembly portion of `UtilsAccessor.to_rich`), together with theorems
settling the specification claims about that pipeline.

Python strings are modelled by `String`, Python machine integers by `Nat`
(all quantities here are non-negative lengths / channel values), Python
`None`-able parameters by `Option`, and Python dictionaries by association
lists (with the "later assignment wins" lookup `dictGet` where the source
mutates a dict).
-/

namespace Pirrtools

/-! ## Python string primitives used by the source -/

/-- Characters treated as whitespace by CPython's `str.strip` / `\s`
for the ASCII range. -/
def isPySpace (c : Char) : Bool :=
  c = ' ' || c = '\t' || c = '\n' || c = '\r' || c = '\x0b' || c = '\x0c'

/-- Python `str.strip()` (ASCII whitespace). -/
def pyStrip (s : String) : String :=
  ⟨((s.data.dropWhile isPySpace).reverse.dropWhile isPySpace).reverse⟩

/-- Python `str.lower()` (ASCII case folding). -/
def pyLower (s : String) : String :=
  ⟨s.data.map Char.toLower⟩

/-- Python `int(...)` on a non-empty string of decimal digits. -/
def pyInt (s : String) : Nat :=
  s.data.foldl (fun a c => a * 10 + (c.toNat - '0'.toNat)) 0

/-- Python `"%02x" % n` / `f"{n:02x}"`: lowercase hex, zero-padded to
width at least 2. -/
def hex2 (n : Nat) : String :=
  let ds := Nat.toDigits 16 n
  ⟨if ds.length < 2 then List.replicate (2 - ds.length) '0' ++ ds else ds⟩

/-! ## Regex fragments of `_parse_css_color`, as deterministic parsers

`re.match` anchors at the start of the string only (prefix match), so the
parsers below consume a prefix and ignore any remaining characters. -/

/-- Consume an expected literal prefix. -/
def dropLit : List Char → List Char → Option (List Char)
  | [], cs => some cs
  | _ :: _, [] => none
  | p :: ps, c :: cs => if c = p then dropLit ps cs else none

/-- `\d+`: one or more ASCII digits (greedy), returning the digit string
and the rest. -/
def takeDigits1 (cs : List Char) : Option (String × List Char) :=
  let ds := cs.takeWhile Char.isDigit
  if ds.isEmpty then none else some (⟨ds⟩, cs.drop ds.length)

/-- `[\d.]+`: one or more digits-or-dots (greedy). -/
def takeNumDot1 (cs : List Char) : Option (String × List Char) :=
  let ds := cs.takeWhile (fun c => c.isDigit || c = '.')
  if ds.isEmpty then none else some (⟨ds⟩, cs.drop ds.length)

/-- Consume one expected character. -/
def expectChar (c : Char) : List Char → Option (List Char)
  | [] => none
  | c' :: cs => if c' = c then some cs else none

/-- Prefix match of `rgb\((\d+),\s*(\d+),\s*(\d+)\)` returning the three
captured digit groups. -/
def matchRgb (cs : List Char) : Option (String × String × String) := do
  let cs ← dropLit "rgb(".data cs
  let (d1, cs) ← takeDigits1 cs
  let cs ← expectChar ',' cs
  let cs := cs.dropWhile isPySpace
  let (d2, cs) ← takeDigits1 cs
  let cs ← expectChar ',' cs
  let cs := cs.dropWhile isPySpace
  let (d3, cs) ← takeDigits1 cs
  let _ ← expectChar ')' cs
  pure (d1, d2, d3)

/-- Prefix match of `rgba\((\d+),\s*(\d+),\s*(\d+),\s*[\d.]+\)` returning
the three captured channel groups (the alpha group is not captured). -/
def matchRgba (cs : List Char) : Option (String × String × String) := do
  let cs ← dropLit "rgba(".data cs
  let (d1, cs) ← takeDigits1 cs
  let cs ← expectChar ',' cs
  let cs := cs.dropWhile isPySpace
  let (d2, cs) ← takeDigits1 cs
  let cs ← expectChar ',' cs
  let cs := cs.dropWhile isPySpace
  let (d3, cs) ← takeDigits1 cs
  let cs ← expectChar ',' cs
  let cs := cs.dropWhile isPySpace
  let (_, cs) ← takeNumDot1 cs
  let _ ← expectChar ')' cs
  pure (d1, d2, d3)

/-- Python `s.startswith("#")`: the first character is `'#'`. -/
def startsWithHash (s : String) : Bool :=
  match s.data with
  | [] => false
  | c :: _ => c = '#'

/-- `_parse_css_color` (pandas.py lines 56-93): strip the value; hex values
(leading `#`) and `rgb(...)` forms are returned (stripped) as-is; an
`rgba(...)` form is converted to `#rrggbb` hex dropping the alpha; anything
else is returned (stripped) as-is. -/
def _parse_css_color (css_value : String) : String :=
  let s := pyStrip css_value
  if startsWithHash s then s
  else if (matchRgb s.data).isSome then s
  else
    match matchRgba s.data with
    | some (r, g, b) => "#" ++ hex2 (pyInt r) ++ hex2 (pyInt g) ++ hex2 (pyInt b)
    | none => s

/-! ## Rich `Text` objects and `_css_to_rich_text` -/

/-- Model of a `rich.text.Text` object as manipulated by the source: its
string content, its base `style` attribute (set by `text.style = ...`,
initially the empty style), and the ordered list of styles layered on via
`text.stylize(...)`. -/
structure RichText where
  content : String
  style : String
  spans : List String
  deriving DecidableEq, Repr

/-- `Text(s)`: fresh text with empty base style and no spans. -/
def RichText.mk0 (s : String) : RichText := ⟨s, "", []⟩

/-- `text.pad_right(n)`: append `n` spaces to the content. -/
def RichText.padRight (t : RichText) (n : Nat) : RichText :=
  { t with content := t.content ++ ⟨List.replicate n ' '⟩ }

/-- `text.stylize(st)`: layer a style on top of the existing ones. -/
def RichText.stylize (t : RichText) (st : String) : RichText :=
  { t with spans := t.spans ++ [st] }

/-- One step of the style loop of `_css_to_rich_text`: dispatch a single
`(property, value)` CSS pair. -/
def applyCssPair (t : RichText) (pv : String × String) : RichText :=
  if pv.1 = "background-color" then t.stylize ("on " ++ _parse_css_color pv.2)
  else if pv.1 = "color" then t.stylize (_parse_css_color pv.2)
  else if pv.1 = "font-weight" ∧ pv.2 = "bold" then t.stylize "bold"
  else if pv.1 = "font-style" ∧ pv.2 = "italic" then t.stylize "italic"
  else t

/-- `_css_to_rich_text` (pandas.py lines 96-140): build a `Text` from the
cell string, right-pad to the column width when one is given and the text
is shorter, then apply each CSS pair in list order. -/
def _css_to_rich_text (css_styles : List (String × String)) (text : String)
    (column_width : Option Nat) : RichText :=
  let t := RichText.mk0 text
  let t :=
    match column_width with
    | some w => if text.length < w then t.padRight (w - text.length) else t
    | none => t
  css_styles.foldl applyCssPair t

/-! ## Style maps and the background detector -/

/-- A pandas styler context: sparse map from `(row, col)` position to the
list of CSS `(property, value)` pairs of that cell. -/
abbrev StyleMap := List ((Nat × Nat) × List (String × String))

/-- The CSS `background-color` values treated as "no real background". -/
def transparentValues : List String := ["", "transparent", "inherit", "initial"]

/-- `_has_background_styles` (pandas.py lines 200-218): scan every style
list in the map for a `background-color` pair whose stripped, lowercased
value is not a transparent placeholder. -/
def _has_background_styles (styles : StyleMap) : Bool :=
  styles.any fun kv =>
    kv.2.any fun pv =>
      pv.1 = "background-color" && !(decide (pyLower (pyStrip pv.2) ∈ transparentValues))

/-! ## Layout planning -/

/-- The `rich.box` border styles referenced by the pipeline.  The source
only ever uses `box.ROUNDED`; the other constructors stand for the further
box styles of the `rich` library that a caller may pass as an override. -/
inductive Box
  | rounded
  | minimal
  | square
  | heavy
  | simple
  deriving DecidableEq, Repr

/-- The bundle of table-level visual settings produced by
`_optimize_table_for_backgrounds`. -/
structure TableSettings where
  box : Box
  padding : Nat × Nat
  collapse_padding : Bool
  show_edge : Bool
  pad_edge : Bool
  expand : Bool
  deriving DecidableEq, Repr

/-- `_optimize_table_for_backgrounds` (pandas.py lines 221-250): the
"compact" preset when backgrounds are present or gaps are forced minimal,
the "spacious" preset otherwise.  Both branches of the source set
`box.ROUNDED`. -/
def _optimize_table_for_backgrounds (has_backgrounds : Bool)
    (minimize_gaps : Bool) : TableSettings :=
  if has_backgrounds || minimize_gaps then
    { box := Box.rounded
      padding := (0, 0)
      collapse_padding := true
      show_edge := true
      pad_edge := false
      expand := false }
  else
    { box := Box.rounded
      padding := (0, 1)
      collapse_padding := false
      show_edge := true
      pad_edge := true
      expand := false }

/-- The keyword dictionary handed to the `rich.table.Table` constructor,
restricted to the keys the pipeline itself manipulates plus two free-form
caller keys (`style`, `title`).  `none` models an absent dictionary key. -/
structure TableKwargs where
  box : Option Box := none
  padding : Option (Nat × Nat) := none
  collapse_padding : Option Bool := none
  show_edge : Option Bool := none
  pad_edge : Option Bool := none
  expand : Option Bool := none
  style : Option String := none
  title : Option String := none
  deriving DecidableEq, Repr

/-- Python `{**a, **b}`: per-key dictionary union where `b` wins. -/
def mergeKwargs (a b : TableKwargs) : TableKwargs :=
  { box := b.box <|> a.box
    padding := b.padding <|> a.padding
    collapse_padding := b.collapse_padding <|> a.collapse_padding
    show_edge := b.show_edge <|> a.show_edge
    pad_edge := b.pad_edge <|> a.pad_edge
    expand := b.expand <|> a.expand
    style := b.style <|> a.style
    title := b.title <|> a.title }

/-- View a full settings record as a kwargs dictionary carrying exactly
the six optimization keys. -/
def settingsToKwargs (s : TableSettings) : TableKwargs :=
  { box := some s.box
    padding := some s.padding
    collapse_padding := some s.collapse_padding
    show_edge := some s.show_edge
    pad_edge := some s.pad_edge
    expand := some s.expand }

/-- The `manual_overrides` dictionary of `to_rich` (pandas.py lines
952-965): one entry per explicitly supplied layout parameter. -/
def manualOverrides (box : Option Box) (padding : Option (Nat × Nat))
    (collapse_padding show_edge pad_edge expand : Option Bool) : TableKwargs :=
  { box := box
    padding := padding
    collapse_padding := collapse_padding
    show_edge := show_edge
    pad_edge := pad_edge
    expand := expand }

/-- The final `Table(...)` keyword dictionary of `to_rich` (pandas.py
lines 941-981): optimized preset (when `auto_optimize`) merged under the
manual per-field overrides, merged under the caller's free-form kwargs,
with a truthy `table_style` then forced into the `style` key. -/
def finalTableKwargs (auto_optimize has_backgrounds minimize_gaps : Bool)
    (box : Option Box) (padding : Option (Nat × Nat))
    (collapse_padding show_edge pad_edge expand : Option Bool)
    (table_style : Option String) (table_kwargs : TableKwargs) : TableKwargs :=
  let optimized :=
    if auto_optimize then
      settingsToKwargs (_optimize_table_for_backgrounds has_backgrounds minimize_gaps)
    else {}
  let manual := manualOverrides box padding collapse_padding show_edge pad_edge expand
  let merged := mergeKwargs (mergeKwargs optimized manual) table_kwargs
  match table_style with
  | some st => if st = "" then merged else { merged with style := some st }
  | none => merged

/-! ## Scalars, indexes and index formatting -/

/-- A pandas scalar cell/label value, reduced to what the rendering code
observes: whether `pd.isna(value)` holds, and the string `str(value)`
(which for a NaN is `"nan"`, not the empty string). -/
structure Scalar where
  na : Bool
  str : String
  deriving DecidableEq, Repr

/-- A pandas row index: flat (one optional name, scalar labels) or
multi-level (one optional name per level, tuple labels). -/
inductive PDIndex
  | flat (name : Option String) (labels : List Scalar)
  | multi (names : List (Option String)) (labels : List (List Scalar))
  deriving Repr

/-- `_format_index_value` (pandas.py lines 253-264): empty string for a
missing value, else the plain string conversion. -/
def _format_index_value (v : Scalar) : String :=
  if v.na then "" else v.str

/-- `_format_multiindex_value` (pandas.py lines 267-277): format each
component and join with `" | "`. -/
def _format_multiindex_value (vs : List Scalar) : String :=
  String.intercalate " | " (vs.map _format_index_value)

/-- The label shown for level `i` of a multi-level index header: the level
name when it is truthy, else the synthetic `Level_i`. -/
def levelLabel (i : Nat) (n : Option String) : String :=
  match n with
  | some s => if s = "" then "Level_" ++ toString i else s
  | none => "Level_" ++ toString i

/-- `_get_index_header_name` (pandas.py lines 280-297).  A pandas index
always carries a `names` list with one entry per level, so the flat case
reads `names[0] or "Index"`; the multi-level case joins the per-level
labels.  The guard `if index.names` is falsy only for an empty names
list. -/
def _get_index_header_name : PDIndex → String
  | PDIndex.flat name _ =>
      match name with
      | some s => if s = "" then "Index" else s
      | none => "Index"
  | PDIndex.multi names _ =>
      if names.isEmpty then "Index"
      else String.intercalate " | " (names.enum.map fun p => levelLabel p.1 p.2)

/-- The display strings of the index labels, exactly as built in both
`_measure_column_widths` and the row loop of `to_rich`: multi-level
labels via `_format_multiindex_value`, flat labels via
`_format_index_value`. -/
def indexDisplayLabels : PDIndex → List String
  | PDIndex.flat _ labels => labels.map _format_index_value
  | PDIndex.multi _ labels => labels.map _format_multiindex_value

/-- Number of rows the index describes. -/
def PDIndex.labelCount : PDIndex → Nat
  | PDIndex.flat _ labels => labels.length
  | PDIndex.multi _ labels => labels.length

/-- A pandas DataFrame as observed by the renderer: a row index, ordered
column names (already `str(col)` converted), and row-major cell values
(`iterrows` order).  Well-formedness (every row as long as `colNames`,
index as long as `rows`) is assumed where theorems need it. -/
structure DataFrame where
  index : PDIndex
  colNames : List String
  rows : List (List Scalar)

/-- The values of data column `j`, as read by `df[col]`. -/
def columnValues (df : DataFrame) (j : Nat) : List Scalar :=
  df.rows.map fun r => r.getD j ⟨false, ""⟩

/-- `max(...)` over a possibly-empty generator with `0` default, as the
source writes `max(lens) if vals else 0`. -/
def listMax (l : List Nat) : Nat := l.foldl max 0

/-- Width of the index column: `max(len(header), max(len(label)))`. -/
def measureIndexWidth (idx : PDIndex) : Nat :=
  max (_get_index_header_name idx).length
    (listMax ((indexDisplayLabels idx).map String.length))

/-- Width of one data column: `max(len(header), max(len(str(val))))`. -/
def measureDataWidth (header : String) (vals : List Scalar) : Nat :=
  max header.length (listMax (vals.map fun v => v.str.length))

/-- The data-column portion of `_measure_column_widths`, iterating the
columns in order with their position `j`. -/
def measureDataWidths (df : DataFrame) : Nat → List String → List (String × Nat)
  | _, [] => []
  | j, name :: rest =>
      (name, measureDataWidth name (columnValues df j)) :: measureDataWidths df (j + 1) rest

/-- `_measure_column_widths` for a DataFrame (pandas.py lines 366-403):
the `__index__` entry (when the index is shown) followed by one entry per
data column. -/
def _measure_column_widths (df : DataFrame) (show_index : Bool) : List (String × Nat) :=
  (if show_index then [("__index__", measureIndexWidth df.index)] else []) ++
    measureDataWidths df 0 df.colNames

/-- Python `dict.get(k, None)` over an insertion-ordered association list
where a later binding of the same key overwrites an earlier one. -/
def dictGet (l : List (String × Nat)) (k : String) : Option Nat :=
  (l.reverse.lookup k)

/-! ## Index gradient palette -/

/-- The colormap lookup performed by `_create_index_gradient_styles`:
the name `"gradient"` is aliased to `"viridis"`, anything else is looked
up directly in the registry (`plt.colormaps[...]`).  A `none` result
models the `KeyError` of an unknown name. -/
def effectiveColormap {Color : Type} (registry : String → Option (ℚ → Color))
    (colormap : String) : Option (ℚ → Color) :=
  if colormap = "gradient" then registry "viridis" else registry colormap

/-- `_create_index_gradient_styles` (pandas.py lines 324-363),
parameterized by the external colormap registry and the external
`matplotlib.colors.to_hex` conversion.  Returns the list of per-row style
strings together with a flag recording whether the failure path emitted
its warning.  Empty input returns before the colormap is touched; a
failed lookup is caught and yields one empty style per value. -/
def _create_index_gradient_styles {Color : Type}
    (registry : String → Option (ℚ → Color)) (toHex : Color → String)
    (index_values : List String) (colormap : String) : List String × Bool :=
  if index_values.isEmpty then ([], false)
  else
    match effectiveColormap registry colormap with
    | some cmap =>
        let n := index_values.length
        let colors :=
          if n = 1 then [cmap (1 / 2)]
          else (List.range n).map fun i : ℕ => cmap ((i : ℚ) / ((n : ℚ) - 1))
        (colors.map fun c => "on " ++ toHex c, false)
    | none => (List.replicate index_values.length "", true)

/-! ## The external pandas styler, as mutated by `to_rich`

pandas `Styler` methods (`background_gradient`, `text_gradient`,
`format`) append work to the styler they are called on and return that
same object, so the local reassignments `styler = styler.background_gradient(...)`
in `to_rich` act on the caller's object.  The state is modelled as the
ordered list of pending styling calls plus the flag that
`_extract_styler_styles` forced `styler._compute()`. -/
inductive StylerCall
  | backgroundGradient (cmap : Option String)
  | textGradient (cmap : Option String)
  | fmt (formatArg : Option String) (naRep : String)
  deriving DecidableEq, Repr

/-- Observable state of a pandas `Styler`. -/
structure Styler where
  calls : List StylerCall := []
  computed : Bool := false
  deriving DecidableEq, Repr

/-- Python truthiness of an optional-string option. -/
def truthy : Option String → Bool
  | some s => !s.isEmpty
  | none => false

/-- The built-in styling stage of `to_rich` (pandas.py lines 857-926):
when any built-in styling option is requested, take the passed styler (or
a fresh one) and layer background gradient, text gradient and formatting
calls onto it in that order.  `format` is modelled by its string form;
`na_rep` alone triggers a bare `format(na_rep=...)` call. -/
def applyBuiltinStyling (styler : Option Styler)
    (bg tg index_bg column_header_style : Option String)
    (alternating_rows : Bool) (format na_rep : Option String) : Option Styler :=
  if truthy bg || truthy tg || truthy index_bg || alternating_rows
      || format.isSome || na_rep.isSome
      || (truthy bg || truthy tg || truthy column_header_style
          || truthy index_bg || alternating_rows) then
    let s := styler.getD {}
    let s :=
      if truthy bg then
        { s with calls := s.calls ++
            [StylerCall.backgroundGradient (if bg = some "gradient" then none else bg)] }
      else s
    let s :=
      if truthy tg then
        { s with calls := s.calls ++
            [StylerCall.textGradient (if tg = some "gradient" then none else tg)] }
      else s
    let s :=
      match format with
      | some f => { s with calls := s.calls ++ [StylerCall.fmt (some f) (na_rep.getD "")] }
      | none =>
          match na_rep with
          | some nr => { s with calls := s.calls ++ [StylerCall.fmt none nr] }
          | none => s
    some s
  else styler

/-- The styler state visible to the caller once `to_rich` returns, given
that the caller passed `s0` in: the built-in styling stage acts on the
caller's object (pandas stylers mutate in place and return `self`), and
the extraction stage then forces `styler._compute()` on it. -/
def callerStylerAfter (s0 : Styler) (bg tg index_bg column_header_style : Option String)
    (alternating_rows : Bool) (format na_rep : Option String) : Styler :=
  match applyBuiltinStyling (some s0) bg tg index_bg column_header_style
      alternating_rows format na_rep with
  | some s => { s with computed := true }
  | none => { s0 with computed := true }

/-! ## Cell rendering and table assembly (`to_rich`, DataFrame branch) -/

/-- A per-cell display-format function from the styler.  A `none` result
models the function raising, which the source swallows. -/
abbrev FormatFn := Scalar → Option String

/-- The `_display_funcs` map of a styler. -/
abbrev FormatMap := List ((Nat × Nat) × FormatFn)

/-- `_apply_styler_formatting` (pandas.py lines 158-176): use the format
function registered for this position when there is one, falling back to
`str(value)` when it is absent or raises. -/
def _apply_styler_formatting (value : Scalar) (row_idx col_idx : Nat)
    (format_funcs : FormatMap) : String :=
  match List.lookup (row_idx, col_idx) format_funcs with
  | some f => (f value).getD value.str
  | none => value.str

/-- A cell handed to `table.add_row`: either a styled `Text` object or a
plain string. -/
inductive Cell
  | text (t : RichText)
  | str (s : String)
  deriving DecidableEq, Repr

/-- One column definition handed to `table.add_column`. -/
structure ColumnDef where
  header : String
  col_style : Option String := none
  header_style : Option String := none
  justify : Option String := none
  width : Option Nat := none
  min_width : Option Nat := none
  deriving DecidableEq, Repr

/-- The assembled `rich.table.Table`: constructor kwargs, column
definitions in insertion order, and rows of cells in insertion order. -/
structure RichTable where
  kwargs : TableKwargs
  columns : List ColumnDef
  rows : List (List Cell)

/-- The index cell of row `i` (pandas.py lines 1026-1049).  `index_value`
is the already-formatted index label.  With backgrounds present or an
index-gradient style for this row, a `Text` is built, padded to the
measured `__index__` width when that width is truthy, and given the
gradient style as its base style; otherwise the plain string is used. -/
def renderIndexCell (has_backgrounds : Bool) (column_widths : List (String × Nat))
    (index_gradient_styles : List String) (i : Nat) (index_value : String) : Cell :=
  let index_bg_style :=
    if !index_gradient_styles.isEmpty ∧ i < index_gradient_styles.length then
      index_gradient_styles.getD i ""
    else ""
  if has_backgrounds || !index_bg_style.isEmpty then
    let t := RichText.mk0 index_value
    let t :=
      match dictGet column_widths "__index__" with
      | some w =>
          if w ≠ 0 ∧ index_value.length < w then t.padRight (w - index_value.length)
          else t
      | none => t
    let t := if !index_bg_style.isEmpty then { t with style := index_bg_style } else t
    Cell.text t
  else Cell.str index_value

/-- One data cell of row `i`, column `j` (pandas.py lines 1052-1076):
CSS styles are looked up at `(i, j)`, the value is formatted, converted to
a styled `Text` padded to the measured column width when backgrounds are
present, and the alternating-row overlay (chosen by `i mod 2`) finally
replaces the base style when it is truthy. -/
def renderDataCell (styles : StyleMap) (format_funcs : FormatMap)
    (has_backgrounds alternating_rows : Bool)
    (alternating_row_colors : String × String)
    (column_widths : List (String × Nat)) (i j : Nat)
    (col : String) (value : Scalar) : Cell :=
  let cell_styles := (List.lookup (i, j) styles).getD []
  let formatted_value := _apply_styler_formatting value i j format_funcs
  let column_width := if has_backgrounds then dictGet column_widths col else none
  let styled_text := _css_to_rich_text cell_styles formatted_value column_width
  let styled_text :=
    if alternating_rows then
      let alt_style :=
        if i % 2 = 0 then alternating_row_colors.1 else alternating_row_colors.2
      if alt_style = "" then styled_text else { styled_text with style := alt_style }
    else styled_text
  Cell.text styled_text

/-- The data cells of one row, iterating `enumerate(row.items())` with the
running column position `j`. -/
def dataRowCells (styles : StyleMap) (format_funcs : FormatMap)
    (has_backgrounds alternating_rows : Bool)
    (alternating_row_colors : String × String)
    (column_widths : List (String × Nat)) (i : Nat) :
    Nat → List (String × Scalar) → List Cell
  | _, [] => []
  | j, (col, v) :: rest =>
      renderDataCell styles format_funcs has_backgrounds alternating_rows
          alternating_row_colors column_widths i j col v ::
        dataRowCells styles format_funcs has_backgrounds alternating_rows
          alternating_row_colors column_widths i (j + 1) rest

/-- One assembled styled row: the optional index cell followed by the data
cells (pandas.py lines 1023-1078). -/
def buildStyledRow (show_index has_backgrounds alternating_rows : Bool)
    (alternating_row_colors : String × String)
    (column_widths : List (String × Nat)) (index_gradient_styles : List String)
    (styles : StyleMap) (format_funcs : FormatMap)
    (i : Nat) (index_value : String) (colNames : List String)
    (rowVals : List Scalar) : List Cell :=
  (if show_index then
      [renderIndexCell has_backgrounds column_widths index_gradient_styles i index_value]
    else []) ++
    dataRowCells styles format_funcs has_backgrounds alternating_rows
      alternating_row_colors column_widths i 0 (colNames.zip rowVals)

/-- The `iterrows` loop: one styled row per (index label, row values)
pair, with the running row position `i`. -/
def assembleRows (show_index has_backgrounds alternating_rows : Bool)
    (alternating_row_colors : String × String)
    (column_widths : List (String × Nat)) (index_gradient_styles : List String)
    (styles : StyleMap) (format_funcs : FormatMap) (colNames : List String) :
    Nat → List (String × List Scalar) → List (List Cell)
  | _, [] => []
  | i, (idxv, rv) :: rest =>
      buildStyledRow show_index has_backgrounds alternating_rows
          alternating_row_colors column_widths index_gradient_styles styles
          format_funcs i idxv colNames rv ::
        assembleRows show_index has_backgrounds alternating_rows
          alternating_row_colors column_widths index_gradient_styles styles
          format_funcs colNames (i + 1) rest

/-- The DataFrame branch of `UtilsAccessor.to_rich` (pandas.py lines
941-1078) from the point where the styles and format functions have been
extracted: detect backgrounds, plan the layout, measure widths, compute
the index gradient palette, emit the column definitions and assemble the
styled rows. -/
def to_rich_df {Color : Type} (registry : String → Option (ℚ → Color))
    (toHex : Color → String) (df : DataFrame)
    (styles : StyleMap) (format_funcs : FormatMap)
    (minimize_gaps show_index : Bool)
    (index_style index_header_style index_justify : String)
    (index_width : Option Nat) (index_bg : Option String)
    (alternating_rows : Bool) (alternating_row_colors : String × String)
    (column_header_style : Option String) (table_style : Option String)
    (auto_optimize : Bool) (box : Option Box) (padding : Option (Nat × Nat))
    (collapse_padding show_edge pad_edge expand : Option Bool)
    (table_kwargs : TableKwargs) : RichTable :=
  let has_backgrounds := if auto_optimize then _has_background_styles styles else false
  let column_widths :=
    if has_backgrounds then _measure_column_widths df show_index else []
  let final_kwargs :=
    finalTableKwargs auto_optimize has_backgrounds minimize_gaps box padding
      collapse_padding show_edge pad_edge expand table_style table_kwargs
  let index_gradient_styles :=
    if truthy index_bg ∧ show_index then
      (_create_index_gradient_styles registry toHex (indexDisplayLabels df.index)
        (index_bg.getD "")).1
    else []
  let indexColumns :=
    if show_index then
      [{ header := _get_index_header_name df.index
         col_style := some index_style
         header_style := some index_header_style
         justify := some index_justify
         width := index_width : ColumnDef }]
    else []
  let dataColumns :=
    df.colNames.map fun c =>
      { header := c
        header_style := if truthy column_header_style then column_header_style else none
        min_width := if has_backgrounds then some 8 else none : ColumnDef }
  { kwargs := final_kwargs
    columns := indexColumns ++ dataColumns
    rows :=
      assembleRows show_index has_backgrounds alternating_rows
        alternating_row_colors column_widths index_gradient_styles styles
        format_funcs df.colNames 0 ((indexDisplayLabels df.index).zip df.rows) }

/-! ## Claim C1: the background-presence detector -/

/-- C1: for every StyleMap, `_has_background_styles` returns true iff some
cell's style list contains a `background-color` property whose value,
after trimming and lowercasing, is not one of
{"", "transparent", "inherit", "initial"}; in particular it returns false
for the empty StyleMap. -/
theorem has_background_styles_spec :
    (∀ styles : StyleMap,
      (_has_background_styles styles = true ↔
        ∃ kv ∈ styles, ∃ pv ∈ kv.2, pv.1 = "background-color" ∧
          pyLower (pyStrip pv.2) ∉ transparentValues)) ∧
    _has_background_styles ([] : StyleMap) = false := by
  constructor
  · intro styles
    simp [_has_background_styles, List.any_eq_true]
  · rfl

/-! ## Claim C2: preset selection and preset contents -/

/-- C2 counterexample: the compact preset (selected here by
`has_backgrounds = true`) uses `box.ROUNDED` — the very same border box as
the spacious preset — not a distinct "tight" border style.  The claim's
assertion that the compact preset has tight borders while the spacious one
has rounded borders is therefore false at this input. -/
theorem optimize_box_counterexample :
    _optimize_table_for_backgrounds true false =
      { box := Box.rounded
        padding := (0, 0)
        collapse_padding := true
        show_edge := true
        pad_edge := false
        expand := false } ∧
    (_optimize_table_for_backgrounds true false).box =
      (_optimize_table_for_backgrounds false false).box :=
  ⟨rfl, rfl⟩

/-- C2 (amended): the compact preset is selected exactly when
`has_background OR force_compact` holds; the compact preset has rounded
borders (the same `box.ROUNDED` as the spacious preset), zero padding,
`collapse_padding` true, `show_edge` true, `pad_edge` false and `expand`
false, while the spacious preset has rounded borders, padding (0,1), no
collapsing, `show_edge` true, `pad_edge` true and `expand` false. -/
theorem optimize_presets_amended (has_backgrounds minimize_gaps : Bool) :
    ((has_backgrounds = true ∨ minimize_gaps = true) →
      _optimize_table_for_backgrounds has_backgrounds minimize_gaps =
        { box := Box.rounded
          padding := (0, 0)
          collapse_padding := true
          show_edge := true
          pad_edge := false
          expand := false }) ∧
    (¬(has_backgrounds = true ∨ minimize_gaps = true) →
      _optimize_table_for_backgrounds has_backgrounds minimize_gaps =
        { box := Box.rounded
          padding := (0, 1)
          collapse_padding := false
          show_edge := true
          pad_edge := true
          expand := false }) := by
  cases has_backgrounds <;> cases minimize_gaps <;>
    simp [_optimize_table_for_backgrounds]

/-- C2 witness: both implications of the amended preset theorem
instantiated at concrete flag values. -/
theorem optimize_presets_amended_witness :
    _optimize_table_for_backgrounds true false =
      { box := Box.rounded
        padding := (0, 0)
        collapse_padding := true
        show_edge := true
        pad_edge := false
        expand := false } ∧
    _optimize_table_for_backgrounds false false =
      { box := Box.rounded
        padding := (0, 1)
        collapse_padding := false
        show_edge := true
        pad_edge := true
        expand := false } :=
  ⟨(optimize_presets_amended true false).1 (Or.inl rfl),
   (optimize_presets_amended false false).2 (by simp)⟩

/-! ## Claim C3: three-tier field-granular layout merge -/

/-- C3: the final `Table` keyword dictionary resolves each layout field
independently as caller-kwargs over manual override over preset
(`{**optimized, **manual, **kwargs}`), and the free-form kwargs cover any
field, including the table-wide `style` string (which, absent a
`table_style` option, comes straight from the kwargs); the free-form
`title` key likewise passes through untouched. -/
theorem layout_merge_precedence (has_backgrounds minimize_gaps : Bool)
    (bx : Option Box) (pd : Option (Nat × Nat)) (cp se pe ex : Option Bool)
    (kw : TableKwargs) :
    (finalTableKwargs true has_backgrounds minimize_gaps bx pd cp se pe ex none kw).box =
      some (kw.box.getD
        (bx.getD (_optimize_table_for_backgrounds has_backgrounds minimize_gaps).box)) ∧
    (finalTableKwargs true has_backgrounds minimize_gaps bx pd cp se pe ex none kw).padding =
      some (kw.padding.getD
        (pd.getD (_optimize_table_for_backgrounds has_backgrounds minimize_gaps).padding)) ∧
    (finalTableKwargs true has_backgrounds minimize_gaps bx pd cp se pe ex none kw).collapse_padding =
      some (kw.collapse_padding.getD
        (cp.getD (_optimize_table_for_backgrounds has_backgrounds minimize_gaps).collapse_padding)) ∧
    (finalTableKwargs true has_backgrounds minimize_gaps bx pd cp se pe ex none kw).show_edge =
      some (kw.show_edge.getD
        (se.getD (_optimize_table_for_backgrounds has_backgrounds minimize_gaps).show_edge)) ∧
    (finalTableKwargs true has_backgrounds minimize_gaps bx pd cp se pe ex none kw).pad_edge =
      some (kw.pad_edge.getD
        (pe.getD (_optimize_table_for_backgrounds has_backgrounds minimize_gaps).pad_edge)) ∧
    (finalTableKwargs true has_backgrounds minimize_gaps bx pd cp se pe ex none kw).expand =
      some (kw.expand.getD
        (ex.getD (_optimize_table_for_backgrounds has_backgrounds minimize_gaps).expand)) ∧
    (finalTableKwargs true has_backgrounds minimize_gaps bx pd cp se pe ex none kw).style =
      kw.style ∧
    (finalTableKwargs true has_backgrounds minimize_gaps bx pd cp se pe ex none kw).title =
      kw.title := by
  obtain ⟨kb, kp, kc, ks, kpe, ke, kst, kti⟩ := kw
  refine ⟨?_, ?_, ?_, ?_, ?_, ?_, ?_, ?_⟩
  · cases kb <;> cases bx <;> rfl
  · cases kp <;> cases pd <;> rfl
  · cases kc <;> cases cp <;> rfl
  · cases ks <;> cases se <;> rfl
  · cases kpe <;> cases pe <;> rfl
  · cases ke <;> cases ex <;> rfl
  · cases kst <;> rfl
  · cases kti <;> rfl

/-! ## Claim C4: column width measurement -/

/-- Positional description of the data-column measuring loop. -/
theorem measureDataWidths_getElem (df : DataFrame) :
    ∀ (names : List String) (j0 k : Nat),
      (measureDataWidths df j0 names)[k]? =
        (names[k]?).map fun nm => (nm, measureDataWidth nm (columnValues df (j0 + k))) := by
  intro names
  induction names with
  | nil => intro j0 k; simp [measureDataWidths]
  | cons n rest ih =>
      intro j0 k
      cases k with
      | zero => simp [measureDataWidths]
      | succ k =>
          have harith : j0 + (k + 1) = (j0 + 1) + k := by omega
          simp [measureDataWidths, ih (j0 + 1) k, harith]

/-- C4: in the measured widths of a DataFrame, the entry of the `j`-th
data column equals `max` of the header-label length and the maximum length
of the column's cell strings; for a source with zero rows that width
collapses to the header length; and when the index is shown, the first
entry is the `__index__` sentinel mapped to `max` of the index header
length and the maximum length of the formatted index labels (multi-level
labels joined by " | " inside `indexDisplayLabels` before measuring). -/
theorem measure_column_widths_spec (df : DataFrame) (show_index : Bool)
    (j : Nat) (name : String) (hj : df.colNames[j]? = some name) :
    (_measure_column_widths df show_index)[(if show_index = true then 1 else 0) + j]? =
      some (name,
        max name.length (listMax ((columnValues df j).map fun v => v.str.length))) ∧
    (df.rows = [] →
      (_measure_column_widths df show_index)[(if show_index = true then 1 else 0) + j]? =
        some (name, name.length)) ∧
    (show_index = true →
      (_measure_column_widths df show_index)[0]? =
        some ("__index__",
          max (_get_index_header_name df.index).length
            (listMax ((indexDisplayLabels df.index).map String.length)))) := by
  have hmain :
      (_measure_column_widths df show_index)[(if show_index = true then 1 else 0) + j]? =
        some (name,
          max name.length (listMax ((columnValues df j).map fun v => v.str.length))) := by
    have hlen :
        (if show_index = true then [("__index__", measureIndexWidth df.index)]
          else ([] : List (String × Nat))).length =
          (if show_index = true then 1 else 0) := by
      cases show_index <;> simp
    unfold _measure_column_widths
    rw [List.getElem?_append_right (by rw [hlen]; omega), hlen,
      Nat.add_sub_cancel_left, measureDataWidths_getElem df df.colNames 0 j, hj]
    simp [measureDataWidth]
  refine ⟨hmain, ?_, ?_⟩
  · intro hrows
    rw [hmain]
    simp [columnValues, hrows, listMax]
  · intro hsi
    subst hsi
    unfold _measure_column_widths
    simp [measureIndexWidth]

/-- C4 witness: a one-column DataFrame whose header label has length 5
("Sales") and whose single cell string has length 9 measures to width 9,
via `measure_column_widths_spec`. -/
theorem measure_column_widths_spec_witness :
    (_measure_column_widths
      ⟨PDIndex.flat none [⟨false, "r"⟩], ["Sales"], [[⟨false, "123456789"⟩]]⟩ true)[1]? =
      some ("Sales", 9) :=
  (measure_column_widths_spec
    ⟨PDIndex.flat none [⟨false, "r"⟩], ["Sales"], [[⟨false, "123456789"⟩]]⟩
    true 0 "Sales" rfl).1.trans (by decide)

/-! ## Claims C6 and C7: the gradient palette generator -/

/-- A one-entry colormap registry over a trivial color type, used to
instantiate the palette theorems at concrete inputs. -/
def unitRegistry : String → Option (ℚ → Unit) :=
  fun s => if s = "viridis" then some (fun _ => ()) else none

/-- A trivial hex conversion for the trivial color type. -/
def unitHex : Unit → String := fun _ => "X"

/-- C6: for every registry, hex conversion, colormap name resolving to a
colormap `cmap`, and value list of length N, the palette generator
returns exactly N entries; the empty list for N = 0; the single midpoint
sample (as a background "on ..." directive) for N = 1; and for N > 1 the
samples at i/(N-1) for i in 0..N-1, each hex-converted and wrapped as a
background directive. -/
theorem gradient_palette_spec {Color : Type}
    (registry : String → Option (ℚ → Color)) (toHex : Color → String)
    (vals : List String) (name : String) (cmap : ℚ → Color)
    (h : effectiveColormap registry name = some cmap) :
    (_create_index_gradient_styles registry toHex vals name).1.length = vals.length ∧
    (vals.length = 0 → (_create_index_gradient_styles registry toHex vals name).1 = []) ∧
    (vals.length = 1 →
      (_create_index_gradient_styles registry toHex vals name).1 =
        ["on " ++ toHex (cmap (1 / 2))]) ∧
    (1 < vals.length →
      (_create_index_gradient_styles registry toHex vals name).1 =
        (List.range vals.length).map fun i : ℕ =>
          "on " ++ toHex (cmap ((i : ℚ) / ((vals.length : ℚ) - 1)))) := by
  unfold _create_index_gradient_styles
  cases vals with
  | nil => simp
  | cons v rest =>
      rw [if_neg (by simp), h]
      dsimp only
      by_cases h1 : (v :: rest).length = 1
      · rw [if_pos h1]
        simp_all
      · rw [if_neg h1]
        refine ⟨by simp, by simp, fun hcontra => absurd hcontra h1, fun _ => by simp⟩

/-- C6 witness: `gradient_palette_spec` at the one-entry unit registry, a
singleton value list and the plain name "viridis": the palette is the
single midpoint sample wrapped as a background directive. -/
theorem gradient_palette_spec_witness :
    (_create_index_gradient_styles unitRegistry unitHex ["a"] "viridis").1 = ["on X"] :=
  (gradient_palette_spec unitRegistry unitHex ["a"] "viridis" (fun _ => ()) rfl).2.2.1 rfl

/-- C7: for every malformed (unknown) colormap name — one on which the
effective registry lookup fails — and every value list of length N, the
palette generator returns exactly N empty-string entries, and whenever the
failure path is reached (N > 0) it flags its non-fatal warning.  The
generator is a total function, so no exception escapes: the caller
degrades to unstyled rendering. -/
theorem gradient_palette_malformed {Color : Type}
    (registry : String → Option (ℚ → Color)) (toHex : Color → String)
    (vals : List String) (name : String)
    (h : effectiveColormap registry name = none) :
    (_create_index_gradient_styles registry toHex vals name).1 =
      List.replicate vals.length "" ∧
    (_create_index_gradient_styles registry toHex vals name).1.length = vals.length ∧
    (0 < vals.length → (_create_index_gradient_styles registry toHex vals name).2 = true) := by
  unfold _create_index_gradient_styles
  cases vals with
  | nil => simp
  | cons v rest =>
      rw [if_neg (by simp), h]
      simp

/-- C7 witness: `gradient_palette_malformed` at the unit registry and the
unknown name "invalid_colormap" with a two-entry value list: two empty
styles and the warning flag. -/
theorem gradient_palette_malformed_witness :
    (_create_index_gradient_styles unitRegistry unitHex ["a", "b"] "invalid_colormap").1 =
      ["", ""] ∧
    (_create_index_gradient_styles unitRegistry unitHex ["a", "b"] "invalid_colormap").2 =
      true := by
  have h := gradient_palette_malformed unitRegistry unitHex ["a", "b"] "invalid_colormap" rfl
  exact ⟨h.1, h.2.2 (by decide)⟩

/-! ## Claim C8: CSS color parsing -/

/-- C8 counterexample: the claim says any other string (named colors,
malformed input) is passed through unchanged, but the source strips
surrounding whitespace first, so the named color "red " (with a trailing
space) comes back as "red", not unchanged. -/
theorem parse_css_color_counterexample :
    _parse_css_color "red " = "red" ∧ "red" ≠ "red " :=
  ⟨by decide, by decide⟩

/-- C8 (amended): `_parse_css_color` first trims surrounding whitespace;
on the trimmed value, a hex color (leading '#') is returned as the trimmed
string; an `rgb(r,g,b)` form is returned as the trimmed string; an
`rgba(r,g,b,a)` form has its alpha dropped and is converted to the
`#RRGGBB` hex of the three channels; any other string is passed through
trimmed but otherwise unchanged, with no validation of numeric ranges. -/
theorem parse_css_color_amended (s : String) :
    (startsWithHash (pyStrip s) = true → _parse_css_color s = pyStrip s) ∧
    ((matchRgb (pyStrip s).data).isSome = true → _parse_css_color s = pyStrip s) ∧
    (∀ r g b : String, startsWithHash (pyStrip s) = false →
      matchRgb (pyStrip s).data = none →
      matchRgba (pyStrip s).data = some (r, g, b) →
      _parse_css_color s = "#" ++ hex2 (pyInt r) ++ hex2 (pyInt g) ++ hex2 (pyInt b)) ∧
    (startsWithHash (pyStrip s) = false → matchRgb (pyStrip s).data = none →
      matchRgba (pyStrip s).data = none → _parse_css_color s = pyStrip s) := by
  unfold _parse_css_color
  refine ⟨fun h1 => ?_, fun h2 => ?_, fun r g b h1 h2 h3 => ?_, fun h1 h2 h3 => ?_⟩
  · rw [if_pos h1]
  · by_cases h1 : startsWithHash (pyStrip s) = true
    · rw [if_pos h1]
    · rw [if_neg h1, if_pos h2]
  · rw [if_neg (by simp [h1]), if_neg (by simp [h2]), h3]
  · rw [if_neg (by simp [h1]), if_neg (by simp [h2]), h3]

/-- C8 witness: the amended theorem applied to the rgba form
"rgba(255, 0, 16, 0.5)": the alpha is dropped and the channels become
hex "#ff0010". -/
theorem parse_css_color_amended_witness :
    _parse_css_color "rgba(255, 0, 16, 0.5)" = "#ff0010" :=
  ((parse_css_color_amended "rgba(255, 0, 16, 0.5)").2.2.1 "255" "0" "16"
    (by decide) (by decide) (by decide)).trans (by decide)

/-! ## Claim C9: (non-)mutation of the caller-supplied styler -/

/-- With `bg`, `tg`, `format` and `na_rep` all absent, the built-in
styling stage leaves a passed styler's pending calls untouched. -/
theorem applyBuiltinStyling_no_ops (s0 : Styler) (index_bg column_header_style : Option String)
    (alternating_rows : Bool) :
    applyBuiltinStyling (some s0) none none index_bg column_header_style
      alternating_rows none none = some s0 := by
  unfold applyBuiltinStyling
  split <;> rfl

/-- C9 counterexample: `to_rich(styler=s, bg="viridis")` layers a
background gradient onto the caller's styler in place (pandas styler
methods mutate and return `self`), so after the call the passed-in styler
is not in its original state — refuting the claim for the option
combination it explicitly includes. -/
theorem styler_mutation_counterexample :
    callerStylerAfter {} (some "viridis") none none none false none none =
      { calls := [StylerCall.backgroundGradient (some "viridis")], computed := true } ∧
    ({} : Styler).calls = [] ∧
    callerStylerAfter {} (some "viridis") none none none false none none ≠
      ({} : Styler) :=
  ⟨by decide, rfl, by decide⟩

/-- C9 (amended): the caller-supplied styler has its style computation
forced (an internal cache fill blessed by the spec as a read), but its
pending styling/formatting state is preserved exactly when none of `bg`,
`tg`, `format`, `na_rep` are supplied; with any of those supplied, the
requested gradients/formatting are layered onto the caller's styler in
place. -/
theorem styler_preserved_without_builtin_styling (s0 : Styler)
    (index_bg column_header_style : Option String) (alternating_rows : Bool) :
    (callerStylerAfter s0 none none index_bg column_header_style
        alternating_rows none none).calls = s0.calls ∧
    (callerStylerAfter s0 none none index_bg column_header_style
        alternating_rows none none).computed = true := by
  unfold callerStylerAfter
  rw [applyBuiltinStyling_no_ops]
  exact ⟨rfl, rfl⟩

/-! ## Structural lemmas about row assembly -/

theorem dataRowCells_length (styles : StyleMap) (format_funcs : FormatMap)
    (hb ar : Bool) (colors : String × String) (cw : List (String × Nat)) (i : Nat) :
    ∀ (j : Nat) (l : List (String × Scalar)),
      (dataRowCells styles format_funcs hb ar colors cw i j l).length = l.length := by
  intro j l
  induction l generalizing j with
  | nil => rfl
  | cons cv rest ih => simp [dataRowCells, ih]

theorem dataRowCells_getElem (styles : StyleMap) (format_funcs : FormatMap)
    (hb ar : Bool) (colors : String × String) (cw : List (String × Nat)) (i : Nat) :
    ∀ (j k : Nat) (l : List (String × Scalar)),
      (dataRowCells styles format_funcs hb ar colors cw i j l)[k]? =
        (l[k]?).map fun cv =>
          renderDataCell styles format_funcs hb ar colors cw i (j + k) cv.1 cv.2 := by
  intro j k l
  induction l generalizing j k with
  | nil => simp [dataRowCells]
  | cons cv rest ih =>
      cases k with
      | zero => simp [dataRowCells]
      | succ k =>
          have harith : j + (k + 1) = (j + 1) + k := by omega
          simp [dataRowCells, ih (j + 1) k, harith]

theorem buildStyledRow_length (si hb ar : Bool) (colors : String × String)
    (cw : List (String × Nat)) (igs : List String) (styles : StyleMap)
    (format_funcs : FormatMap) (i : Nat) (iv : String) (colNames : List String)
    (rowVals : List Scalar) :
    (buildStyledRow si hb ar colors cw igs styles format_funcs i iv colNames
        rowVals).length =
      (if si = true then 1 else 0) + (colNames.zip rowVals).length := by
  unfold buildStyledRow
  cases si with
  | false => simp [dataRowCells_length]
  | true => simp [dataRowCells_length]; omega

theorem assembleRows_length (si hb ar : Bool) (colors : String × String)
    (cw : List (String × Nat)) (igs : List String) (styles : StyleMap)
    (format_funcs : FormatMap) (colNames : List String) :
    ∀ (i : Nat) (prs : List (String × List Scalar)),
      (assembleRows si hb ar colors cw igs styles format_funcs colNames i prs).length =
        prs.length := by
  intro i prs
  induction prs generalizing i with
  | nil => rfl
  | cons pr rest ih => simp [assembleRows, ih]

theorem assembleRows_mem (si hb ar : Bool) (colors : String × String)
    (cw : List (String × Nat)) (igs : List String) (styles : StyleMap)
    (format_funcs : FormatMap) (colNames : List String) :
    ∀ (i : Nat) (prs : List (String × List Scalar)) (row : List Cell),
      row ∈ assembleRows si hb ar colors cw igs styles format_funcs colNames i prs →
      ∃ (i' : Nat) (pr : String × List Scalar), pr ∈ prs ∧
        row = buildStyledRow si hb ar colors cw igs styles format_funcs i' pr.1
          colNames pr.2 := by
  intro i prs
  induction prs generalizing i with
  | nil => intro row h; simp [assembleRows] at h
  | cons pr rest ih =>
      intro row h
      rw [assembleRows] at h
      rcases List.mem_cons.mp h with h | h
      · exact ⟨i, pr, List.mem_cons_self _ _, h⟩
      · obtain ⟨i', pr', hmem, heq⟩ := ih (i + 1) row h
        exact ⟨i', pr', List.mem_cons_of_mem _ hmem, heq⟩

theorem assembleRows_getElem (si hb ar : Bool) (colors : String × String)
    (cw : List (String × Nat)) (igs : List String) (styles : StyleMap)
    (format_funcs : FormatMap) (colNames : List String) :
    ∀ (i k : Nat) (prs : List (String × List Scalar)),
      (assembleRows si hb ar colors cw igs styles format_funcs colNames i prs)[k]? =
        (prs[k]?).map fun pr =>
          buildStyledRow si hb ar colors cw igs styles format_funcs (i + k) pr.1
            colNames pr.2 := by
  intro i k prs
  induction prs generalizing i k with
  | nil => simp [assembleRows]
  | cons pr rest ih =>
      cases k with
      | zero => simp [assembleRows]
      | succ k =>
          have harith : i + (k + 1) = (i + 1) + k := by omega
          simp [assembleRows, ih (i + 1) k, harith]

theorem zip_getElem {α β : Type} (l₁ : List α) (l₂ : List β) (k : Nat)
    (x : α) (y : β) (h₁ : l₁[k]? = some x) (h₂ : l₂[k]? = some y) :
    (l₁.zip l₂)[k]? = some (x, y) := by
  induction l₁ generalizing l₂ k with
  | nil => simp at h₁
  | cons a as ih =>
      cases l₂ with
      | nil => simp at h₂
      | cons b bs =>
          cases k with
          | zero => simp_all [List.zip_cons_cons]
          | succ k => simp_all [List.zip_cons_cons, ih bs k]

theorem indexDisplayLabels_length (idx : PDIndex) :
    (indexDisplayLabels idx).length = idx.labelCount := by
  cases idx <;> simp [indexDisplayLabels, PDIndex.labelCount]

/-! ## Claim C10: shape of the assembled table -/

/-- C10: for every DataFrame with R rows and C data columns (well-formed:
every row has C cells and the index has R labels) and every option
combination, the assembled table has exactly R rows; exactly C+1 columns
when the index is shown (the index column first, then the data columns in
source order) and exactly C columns otherwise; and every assembled row
has exactly one cell per column. -/
theorem table_shape {Color : Type} (registry : String → Option (ℚ → Color))
    (toHex : Color → String) (df : DataFrame) (styles : StyleMap)
    (format_funcs : FormatMap) (mg si : Bool) (ist ihs ij : String)
    (iw : Option Nat) (ibg : Option String) (ar : Bool) (colors : String × String)
    (chs tst : Option String) (ao : Bool) (bx : Option Box)
    (pd : Option (Nat × Nat)) (cp se pe ex : Option Bool) (kw : TableKwargs)
    (hIdx : df.index.labelCount = df.rows.length)
    (hRows : ∀ r ∈ df.rows, r.length = df.colNames.length) :
    (to_rich_df registry toHex df styles format_funcs mg si ist ihs ij iw ibg ar
        colors chs tst ao bx pd cp se pe ex kw).columns.length =
      (if si = true then 1 else 0) + df.colNames.length ∧
    (to_rich_df registry toHex df styles format_funcs mg si ist ihs ij iw ibg ar
        colors chs tst ao bx pd cp se pe ex kw).rows.length = df.rows.length ∧
    (∀ row ∈ (to_rich_df registry toHex df styles format_funcs mg si ist ihs ij iw
        ibg ar colors chs tst ao bx pd cp se pe ex kw).rows,
      row.length =
        (to_rich_df registry toHex df styles format_funcs mg si ist ihs ij iw ibg ar
          colors chs tst ao bx pd cp se pe ex kw).columns.length) := by
  have hcols :
      (to_rich_df registry toHex df styles format_funcs mg si ist ihs ij iw ibg ar
          colors chs tst ao bx pd cp se pe ex kw).columns.length =
        (if si = true then 1 else 0) + df.colNames.length := by
    unfold to_rich_df
    cases si with
    | false => simp
    | true => simp; omega
  have hzlen :
      ((indexDisplayLabels df.index).zip df.rows).length = df.rows.length := by
    rw [List.length_zip, indexDisplayLabels_length, hIdx, Nat.min_self]
  refine ⟨hcols, ?_, ?_⟩
  · unfold to_rich_df
    rw [assembleRows_length]
    exact hzlen
  · intro row hrow
    rw [hcols]
    unfold to_rich_df at hrow
    obtain ⟨i', pr, hmem, heq⟩ :=
      assembleRows_mem _ _ _ _ _ _ _ _ _ _ _ row hrow
    have hpr2 : pr.2 ∈ df.rows := by
      obtain ⟨a, b⟩ := pr
      exact (List.of_mem_zip hmem).2
    rw [heq, buildStyledRow_length, List.length_zip, hRows pr.2 hpr2,
      Nat.min_self]

/-- C10 witness: a concrete 1×1 DataFrame with the index shown assembles
to a 2-column, 1-row table whose single row has 2 cells. -/
theorem table_shape_witness :
    (to_rich_df unitRegistry unitHex
        ⟨PDIndex.flat none [⟨false, "0"⟩], ["A"], [[⟨false, "1"⟩]]⟩
        [] [] false true "dim" "bold dim" "left" none none false ("", "on grey11")
        none none true none none none none none none {}).columns.length = 2 ∧
    (to_rich_df unitRegistry unitHex
        ⟨PDIndex.flat none [⟨false, "0"⟩], ["A"], [[⟨false, "1"⟩]]⟩
        [] [] false true "dim" "bold dim" "left" none none false ("", "on grey11")
        none none true none none none none none none {}).rows.length = 1 := by
  have h := table_shape unitRegistry unitHex
    ⟨PDIndex.flat none [⟨false, "0"⟩], ["A"], [[⟨false, "1"⟩]]⟩
    [] [] false true "dim" "bold dim" "left" none none false ("", "on grey11")
    none none true none none none none none none {} rfl
    (by intro r hr; simp at hr; simp [hr])
  exact ⟨h.1, h.2.1⟩

/-! ## Claim C5: the alternating-row overlay -/

theorem applyCssPair_style (t : RichText) (pv : String × String) :
    (applyCssPair t pv).style = t.style := by
  unfold applyCssPair RichText.stylize
  split_ifs <;> rfl

theorem foldl_applyCssPair_style (cs : List (String × String)) :
    ∀ t : RichText, (cs.foldl applyCssPair t).style = t.style := by
  induction cs with
  | nil => intro t; rfl
  | cons pv rest ih => intro t; rw [List.foldl_cons, ih, applyCssPair_style]

/-- The CSS conversion never touches the `Text`'s base `style` attribute:
CSS pairs go to `stylize` spans, so the base style stays empty. -/
theorem css_to_rich_text_style (cs : List (String × String)) (text : String)
    (w : Option Nat) : (_css_to_rich_text cs text w).style = "" := by
  unfold _css_to_rich_text
  rw [foldl_applyCssPair_style]
  cases w with
  | none => rfl
  | some w =>
      dsimp only
      split <;> rfl

/-- With alternating rows on and the default colors, a data cell's base
style is the overlay chosen by the row parity, independent of the CSS
styles at that position. -/
theorem renderDataCell_alt (styles : StyleMap) (fmts : FormatMap) (hb : Bool)
    (cw : List (String × Nat)) (i j : Nat) (col : String) (v : Scalar) :
    ∃ t : RichText,
      renderDataCell styles fmts hb true ("", "on grey11") cw i j col v =
        Cell.text t ∧
      (i % 2 = 1 → t.style = "on grey11") ∧ (i % 2 = 0 → t.style = "") := by
  rcases Nat.mod_two_eq_zero_or_one i with h | h
  · refine ⟨_css_to_rich_text ((List.lookup (i, j) styles).getD [])
      (_apply_styler_formatting v i j fmts)
      (if hb = true then dictGet cw col else none), ?_, ?_, ?_⟩
    · simp [renderDataCell, h]
    · intro h1; omega
    · intro _; exact css_to_rich_text_style _ _ _
  · refine ⟨{ _css_to_rich_text ((List.lookup (i, j) styles).getD [])
      (_apply_styler_formatting v i j fmts)
      (if hb = true then dictGet cw col else none) with style := "on grey11" },
      ?_, ?_, ?_⟩
    · simp [renderDataCell, h]
    · intro _; rfl
    · intro h0; omega

/-- C5: in every render with `alternating_rows = True` and the default
alternating colors `("", "on grey11")`, the data cell at any position
(row `i`, column `j`) of the assembled table is a styled `Text` whose
base style is `"on grey11"` when the row position is odd and empty when
it is even — for every style map, i.e. the overlay is applied last and
replaces the base style regardless of any per-cell CSS styling at that
position (whose converted attributes live in the spans underneath). -/
theorem alternating_rows_overlay {Color : Type}
    (registry : String → Option (ℚ → Color)) (toHex : Color → String)
    (df : DataFrame) (styles : StyleMap) (format_funcs : FormatMap)
    (mg si : Bool) (ist ihs ij : String) (iw : Option Nat) (ibg : Option String)
    (chs tst : Option String) (ao : Bool) (bx : Option Box)
    (pd : Option (Nat × Nat)) (cp se pe ex : Option Bool) (kw : TableKwargs)
    (i j : Nat)
    (hIdx : df.index.labelCount = df.rows.length)
    (hRows : ∀ r ∈ df.rows, r.length = df.colNames.length)
    (hi : i < df.rows.length) (hj : j < df.colNames.length) :
    ∃ t : RichText,
      ((to_rich_df registry toHex df styles format_funcs mg si ist ihs ij iw ibg
          true ("", "on grey11") chs tst ao bx pd cp se pe ex kw).rows[i]?.bind
        fun row => row[(if si = true then 1 else 0) + j]?) = some (Cell.text t) ∧
      (i % 2 = 1 → t.style = "on grey11") ∧
      (i % 2 = 0 → t.style = "") := by
  obtain ⟨lab, hlab⟩ : ∃ lab, (indexDisplayLabels df.index)[i]? = some lab := by
    cases hl : (indexDisplayLabels df.index)[i]? with
    | none =>
        rw [List.getElem?_eq_none_iff, indexDisplayLabels_length, hIdx] at hl
        omega
    | some lab => exact ⟨lab, rfl⟩
  obtain ⟨rv, hrv⟩ : ∃ rv, df.rows[i]? = some rv := by
    cases hl : df.rows[i]? with
    | none => rw [List.getElem?_eq_none_iff] at hl; omega
    | some rv => exact ⟨rv, rfl⟩
  obtain ⟨col, hcol⟩ : ∃ col, df.colNames[j]? = some col := by
    cases hl : df.colNames[j]? with
    | none => rw [List.getElem?_eq_none_iff] at hl; omega
    | some col => exact ⟨col, rfl⟩
  obtain ⟨v, hv⟩ : ∃ v, rv[j]? = some v := by
    cases hl : rv[j]? with
    | none =>
        rw [List.getElem?_eq_none_iff, hRows rv (List.getElem?_mem hrv)] at hl
        omega
    | some v => exact ⟨v, rfl⟩
  unfold to_rich_df
  dsimp only
  obtain ⟨t, ht, hodd, heven⟩ := renderDataCell_alt styles format_funcs
    (if ao = true then _has_background_styles styles else false)
    (if (if ao = true then _has_background_styles styles else false) = true then
      _measure_column_widths df si else [])
    i j col v
  refine ⟨t, ?_, hodd, heven⟩
  rw [assembleRows_getElem, zip_getElem _ _ _ _ _ hlab hrv]
  simp only [Option.map_some', Option.some_bind, Nat.zero_add]
  unfold buildStyledRow
  rw [List.getElem?_append_right (by cases si <;> simp)]
  have hifLen :
      (if si = true then
          [renderIndexCell (if ao = true then _has_background_styles styles else false)
            (if (if ao = true then _has_background_styles styles else false) = true then
              _measure_column_widths df si else [])
            (if truthy ibg = true ∧ si = true then
              (_create_index_gradient_styles registry toHex (indexDisplayLabels df.index)
                (ibg.getD "")).1
            else []) i lab]
        else ([] : List Cell)).length = (if si = true then 1 else 0) := by
    cases si <;> rfl
  rw [hifLen, Nat.add_sub_cancel_left, dataRowCells_getElem,
    zip_getElem _ _ _ _ _ hcol hv]
  simp only [Option.map_some', Nat.zero_add]
  rw [ht]

/-- C5 witness: a 2×1 DataFrame rendered with alternating rows and the
default colors, where the cell at the odd row position 1 carries a
per-cell CSS background — its base style is nonetheless the overlay
"on grey11". -/
theorem alternating_rows_overlay_witness :
    ∃ t : RichText,
      ((to_rich_df unitRegistry unitHex
          ⟨PDIndex.flat none [⟨false, "0"⟩, ⟨false, "1"⟩], ["A"],
            [[⟨false, "1"⟩], [⟨false, "2"⟩]]⟩
          [((1, 0), [("background-color", "#ff0000")])] [] false true "dim"
          "bold dim" "left" none none true ("", "on grey11") none none true none
          none none none none none {}).rows[1]?.bind fun row => row[1]?) =
        some (Cell.text t) ∧
      (1 % 2 = 1 → t.style = "on grey11") ∧
      (1 % 2 = 0 → t.style = "") :=
  alternating_rows_overlay unitRegistry unitHex
    ⟨PDIndex.flat none [⟨false, "0"⟩, ⟨false, "1"⟩], ["A"],
      [[⟨false, "1"⟩], [⟨false, "2"⟩]]⟩
    [((1, 0), [("background-color", "#ff0000")])] [] false true "dim" "bold dim"
    "left" none none none none true none none none none none none {} 1 0 rfl
    (by
      intro r hr
      simp only [List.mem_cons, List.not_mem_nil, or_false] at hr
      rcases hr with h | h <;> subst h <;> rfl)
    (by decide) (by decide)

end Pirrtools
